import Mathlib

/-!
# Verification of the twilio-translation-backend audio pipeline

Shallow embedding of the repository's core components:

* `src/bidirectional-processor.js` — the `AdvancedVoiceProcessor` class
  (buffering state machine, µ-law decoding, pipeline control flow,
  outbound chunked sending, session registration/cleanup);
* `src/voice-analyzer.js` — the `VoiceAnalyzer` class (pitch/speed/energy
  detection, profile cache with exponential smoothing);
* `src/server.js` — session registry (`activeSessions`), the WebSocket
  `close` handler, room creation.

JavaScript numbers are modelled as exact rationals extended with the
special values `NaN`/`Infinity`/`-Infinity` (`JSNum`); the only places the
special values can arise in the embedded code are divisions, and the
embedding reproduces the JS rules (`0/0 = NaN`, `x/0 = ±Infinity`,
comparisons with `NaN` are false, `Math.min`/`Math.max`/`Math.round`
propagate `NaN`).  `Math.sqrt` is kept as an explicit function parameter
(`sqrtFn`) on non-negative finite arguments; every theorem below is
either independent of it or instantiates it.  Buffers are lists of byte
values (`List Nat`), 16-bit PCM samples are `Int`.
-/

set_option maxRecDepth 40000

/-- JavaScript double values as used by this code base: exact rationals
plus the special values.  (No finite rounding is modelled; the embedded
computations stay well inside the exactly-representable range except where
a theorem notes otherwise.) -/
inductive JSNum where
  | nan : JSNum
  | posInf : JSNum
  | negInf : JSNum
  | num : ℚ → JSNum
deriving DecidableEq, Repr

namespace JSNum

/-- JS addition (only the cases reachable in the embedded code). -/
def add : JSNum → JSNum → JSNum
  | num a, num b => num (a + b)
  | nan, _ => nan
  | _, nan => nan
  | posInf, negInf => nan
  | negInf, posInf => nan
  | posInf, _ => posInf
  | _, posInf => posInf
  | negInf, _ => negInf
  | _, negInf => negInf

/-- JS subtraction. -/
def sub : JSNum → JSNum → JSNum
  | num a, num b => num (a - b)
  | nan, _ => nan
  | _, nan => nan
  | posInf, posInf => nan
  | negInf, negInf => nan
  | posInf, _ => posInf
  | negInf, _ => negInf
  | _, posInf => negInf
  | _, negInf => posInf

/-- JS multiplication (infinite cases restricted to what can arise here:
nonzero finite times infinite). -/
def mul : JSNum → JSNum → JSNum
  | num a, num b => num (a * b)
  | nan, _ => nan
  | _, nan => nan
  | posInf, posInf => posInf
  | posInf, negInf => negInf
  | negInf, posInf => negInf
  | negInf, negInf => posInf
  | posInf, num b => if b = 0 then nan else if 0 < b then posInf else negInf
  | num a, posInf => if a = 0 then nan else if 0 < a then posInf else negInf
  | negInf, num b => if b = 0 then nan else if 0 < b then negInf else posInf
  | num a, negInf => if a = 0 then nan else if 0 < a then negInf else posInf

/-- JS division: `0/0 = NaN`, `x/0 = ±Infinity` for finite nonzero `x`. -/
def div : JSNum → JSNum → JSNum
  | num a, num b =>
      if b = 0 then
        if a = 0 then nan else if 0 < a then posInf else negInf
      else num (a / b)
  | nan, _ => nan
  | _, nan => nan
  | posInf, posInf => nan
  | posInf, negInf => nan
  | negInf, posInf => nan
  | negInf, negInf => nan
  | posInf, num b => if 0 ≤ b then posInf else negInf
  | negInf, num b => if 0 ≤ b then negInf else posInf
  | num _, posInf => num 0
  | num _, negInf => num 0

/-- JS `<` comparison: any comparison involving `NaN` is false. -/
def lt : JSNum → JSNum → Bool
  | num a, num b => decide (a < b)
  | nan, _ => false
  | _, nan => false
  | posInf, _ => false
  | negInf, negInf => false
  | negInf, _ => true
  | _, posInf => true
  | _, negInf => false

/-- `Math.round`: round half toward positive infinity; `NaN`/infinities
are propagated. -/
def round : JSNum → JSNum
  | num a => num (⌊a + 1/2⌋ : ℤ)
  | nan => nan
  | posInf => posInf
  | negInf => negInf

/-- `Math.min` of two arguments: `NaN` if either argument is `NaN`. -/
def min2 : JSNum → JSNum → JSNum
  | nan, _ => nan
  | _, nan => nan
  | posInf, b => b
  | a, posInf => a
  | negInf, _ => negInf
  | _, negInf => negInf
  | num a, num b => num (min a b)

/-- `Math.max` of two arguments: `NaN` if either argument is `NaN`. -/
def max2 : JSNum → JSNum → JSNum
  | nan, _ => nan
  | _, nan => nan
  | negInf, b => b
  | a, negInf => a
  | posInf, _ => posInf
  | _, posInf => posInf
  | num a, num b => num (max a b)

end JSNum

/-- `Math.round` on an exact rational, as an integer: JS rounds half
toward `+∞` (`Math.round(2.5) = 3`, `Math.round(-2.5) = -2`). -/
def jsRoundQ (a : ℚ) : ℤ := ⌊a + 1/2⌋

/-- Integer clamp used by the analyzer mappings:
`Math.max (lo, Math.min (hi, x))` for integer-valued operands. -/
def clampZ (lo hi x : ℤ) : ℤ := max lo (min hi x)

/-!
## AudioCodec — `decodeMulaw` (src/bidirectional-processor.js 250–274,
identical in src/unnamed/part_000 260–284)

The per-byte conversion `mulawToLinear` works on the 32-bit pattern of
`~mulaw` (JS bitwise NOT of a byte): `sign = mulaw & 0x80`,
`exponent = (mulaw >> 4) & 7`, `mantissa = mulaw & 0x0F` are the bit
fields of that pattern.  For a byte `b`, the 32-bit pattern of `~b` is
`2^32 - 1 - b`; the three fields only look at its low 8 bits.
-/

/-- `mulawToLinear` from `decodeMulaw`, for one input byte.  The `sign`
truthiness test (`if (sign)`) is modelled as a test on the sign bit. -/
def mulawToLinear (b : Nat) : Int :=
  let mu : Nat := 2 ^ 32 - 1 - b % 2 ^ 32
  let sign : Nat := mu / 2 ^ 7 % 2
  let exponent : Nat := mu / 2 ^ 4 % 2 ^ 3
  let mantissa : Nat := mu % 2 ^ 4
  let sample : Nat := (mantissa <<< (exponent + 3)) + (0x84 <<< exponent)
  let sample : Nat := if exponent = 0 then sample + 0x84 else sample
  if sign = 1 then -(sample : Int) else (sample : Int)

/-- `decodeMulaw`: per-byte conversion over the whole buffer.  The
`writeInt16LE` store is value-preserving because every produced sample
lies in `[-32768, 32767]` (largest magnitude is `32256`); the decoded
buffer is therefore modelled as the list of sample values. -/
def decodeMulaw (bs : List Nat) : List Int := bs.map mulawToLinear

/-- Modelled from the spec: the standard µ-law reference decoding
("Must be bit-exact against the standard reference table", §4.3/§8).
This is the classical G.711 µ-law-to-linear conversion that generates the
standard 16-bit reference table (`0x00 ↦ -32124`, …, `0xFF ↦ 0`):
complement the byte, then `t = ((mantissa << 3) + 0x84) << exponent` and
the result is `±(t - 0x84)` according to the sign bit. -/
def mulawRefLinear (b : Nat) : Int :=
  let u : Nat := 255 - b % 256
  let t : Nat := (((u % 16) <<< 3) + 0x84) <<< (u / 16 % 8)
  if u / 128 % 2 = 1 then (0x84 : Int) - (t : Int) else (t : Int) - 0x84

/-- The reference decoding of a whole buffer, sample for sample. -/
def refDecodeMulaw (bs : List Nat) : List Int := bs.map mulawRefLinear

set_option maxRecDepth 4096 in
/-- C1: the µ-law decoder does NOT match the standard reference table.
The code computes `(mantissa << (exponent+3)) + (0x84 << exponent)` and
adds the bias again when the exponent is zero, instead of subtracting the
bias once as the standard reconstruction does; consequently every one of
the 256 byte values decodes to a wrong sample (off by `132` or `264` in
magnitude).  At byte `0xFF` the reference table gives silence `0` but the
code produces `264`; at byte `0x00` the reference gives `-32124` but the
code produces `-32256`. -/
theorem c1_mulaw_decode_differs_from_reference_table :
    decodeMulaw [0xFF] = [264] ∧ refDecodeMulaw [0xFF] = [0] ∧
    decodeMulaw [0x00] = [-32256] ∧ refDecodeMulaw [0x00] = [-32124] ∧
    ∀ b : Nat, b < 256 → mulawToLinear b ≠ mulawRefLinear b := by
  decide

/-!
## VoiceAnalyzer (src/voice-analyzer.js)

PCM buffers arrive as byte lists; `readInt16LE` walks them two bytes at a
time.  On an odd-length buffer the final `readInt16LE` call is out of
range and throws (`ERR_OUT_OF_RANGE`), which is the only way any of the
`detect*` helpers can throw; this is modelled with `Except Unit`.
-/

/-- Little-endian signed 16-bit value from two bytes. -/
def int16OfBytes (lo hi : Nat) : Int :=
  let v : Nat := hi % 256 * 256 + lo % 256
  if v < 32768 then (v : Int) else (v : Int) - 65536

/-- The `for (i = 0; i < pcmBuffer.length; i += 2) readInt16LE(i)` loop
shared by all three detectors; throws on an odd-length buffer exactly as
`readInt16LE` does on the final lone byte. -/
def bytesToSamples : List Nat → Except Unit (List Int)
  | [] => .ok []
  | [_] => .error ()
  | lo :: hi :: rest => do
      let s ← bytesToSamples rest
      .ok (int16OfBytes lo hi :: s)

/-- Autocorrelation of `samples` at a given lag (`period`), matching
`for (i = 0; i < samples.length - period; i++) correlation += s[i]*s[i+period]`
(no iterations when the bound is non-positive). -/
def autocorrelation (samples : List Int) (period : Nat) : Int :=
  (List.range (samples.length - period)).foldl
    (fun acc i => acc + samples.getD i 0 * samples.getD (i + period) 0) 0

/-- `detectPitch`: argmax of the autocorrelation over periods 16..160
(`Math.floor(8000/500)` to `Math.floor(8000/50)`, strict improvement
only), then the four-segment frequency-to-adjustment map, rounded and
clamped to `[-20, 20]`. -/
def detectPitch (pcmBuffer : List Nat) : Except Unit Int := do
  let samples ← bytesToSamples pcmBuffer
  let bestPeriod : Nat :=
    ((List.range' 16 145).foldl
      (fun best period =>
        let correlation := autocorrelation samples period
        if correlation > best.1 then (correlation, period) else best)
      ((0 : Int), 16)).2
  let frequency : ℚ := 8000 / (bestPeriod : ℚ)
  let pitchAdjustment : ℚ :=
    if frequency < 120 then -10 + (frequency - 85) / 35 * 10
    else if frequency < 165 then -5 + (frequency - 120) / 45 * 5
    else if frequency < 210 then 0 + (frequency - 165) / 45 * 10
    else 10 + (frequency - 210) / 45 * 10
  .ok (clampZ (-20) 20 (jsRoundQ pitchAdjustment))

/-- `detectSpeed`: zero-crossing count (initial `prevSample = 0`),
crossing rate per second (`NaN` on an empty buffer, since
`durationSeconds` is then `0` and JS gives `0/0 = NaN`), three-band map,
clamp to `[0.75, 1.5]`. -/
def detectSpeed (pcmBuffer : List Nat) : Except Unit JSNum := do
  let samples ← bytesToSamples pcmBuffer
  let zeroCrossings : Nat :=
    (samples.foldl
      (fun acc sample =>
        (if (acc.2 ≥ 0 ∧ sample < 0) ∨ (acc.2 < 0 ∧ sample ≥ 0)
         then acc.1 + 1 else acc.1, sample))
      ((0 : Nat), (0 : Int))).1
  let durationSeconds : ℚ := (pcmBuffer.length : ℚ) / 2 / 8000
  let crossingRate := JSNum.div (.num zeroCrossings) (.num durationSeconds)
  let speedMultiplier : JSNum :=
    if JSNum.lt crossingRate (.num 150) then
      JSNum.add (.num (8/10)) (JSNum.mul (JSNum.div crossingRate (.num 150)) (.num (2/10)))
    else if JSNum.lt crossingRate (.num 250) then .num 1
    else
      JSNum.add (.num 1)
        (JSNum.mul (JSNum.div (JSNum.sub crossingRate (.num 250)) (.num 250)) (.num (3/10)))
  .ok (JSNum.max2 (.num (3/4)) (JSNum.min2 (.num (3/2)) speedMultiplier))

/-- `Math.sqrt`, parameterized by its behaviour `sqrtFn` on non-negative
finite arguments; the special values follow JS (`sqrt(NaN) = NaN`,
`sqrt` of a negative is `NaN`, `sqrt(Infinity) = Infinity`). -/
def jsSqrt (sqrtFn : ℚ → ℚ) : JSNum → JSNum
  | .nan => .nan
  | .posInf => .posInf
  | .negInf => .nan
  | .num q => if q < 0 then .nan else .num (sqrtFn q)

/-- `detectEnergy`: RMS of the samples (`NaN` on an empty buffer via
`0/0`), inverse three-band volume map, rounded and clamped to
`[-10, 10]`. -/
def detectEnergy (sqrtFn : ℚ → ℚ) (pcmBuffer : List Nat) : Except Unit JSNum := do
  let samples ← bytesToSamples pcmBuffer
  let sumSquares : Int := samples.foldl (fun acc sample => acc + sample * sample) 0
  let sampleCount : Nat := samples.length
  let rms := jsSqrt sqrtFn (JSNum.div (.num sumSquares) (.num sampleCount))
  let volumeAdjustment : JSNum :=
    if JSNum.lt rms (.num 1000) then
      JSNum.add (.num 5) (JSNum.mul (JSNum.div rms (.num 1000)) (.num 5))
    else if JSNum.lt rms (.num 3000) then .num 0
    else
      JSNum.sub (.num (-5))
        (JSNum.mul (JSNum.div (JSNum.sub rms (.num 3000)) (.num 3000)) (.num 5))
  .ok (JSNum.max2 (.num (-10)) (JSNum.min2 (.num 10) (JSNum.round volumeAdjustment)))

/-- `detectGender`: sign of the pitch adjustment. -/
def detectGender (pitch : Int) : String :=
  if pitch < 0 then "male" else "female"

/-- The profile object built by `analyzeVoice`. -/
structure VoiceProfile where
  pitch : Int
  speed : JSNum
  energy : JSNum
  gender : String
  timestamp : Nat
deriving DecidableEq, Repr

/-- A cached profile (`voiceProfiles` map entry): a profile plus the
`samples` counter. -/
structure CachedProfile where
  pitch : Int
  speed : JSNum
  energy : JSNum
  gender : String
  timestamp : Nat
  samples : Nat
deriving DecidableEq, Repr

/-- The `voiceProfiles` map, keyed by `userId` (which is a JS value that
may be `null`, hence `Option String`); insertion-ordered association
list like a JS `Map`. -/
abbrev ProfileCache := List (Option String × CachedProfile)

/-- `Map.get`. -/
def cacheFind : ProfileCache → Option String → Option CachedProfile
  | [], _ => none
  | (k, v) :: rest, key => if k = key then some v else cacheFind rest key

/-- `Map.set`: replace in place if the key exists, else append. -/
def cacheSet : ProfileCache → Option String → CachedProfile → ProfileCache
  | [], key, v => [(key, v)]
  | (k, w) :: rest, key, v =>
      if k = key then (key, v) :: rest else (k, w) :: cacheSet rest key v

/-- `getDefaultProfile`. -/
def getDefaultProfile (now : Nat) : VoiceProfile :=
  { pitch := 0, speed := .num 1, energy := .num 0, gender := "neutral", timestamp := now }

/-- `updateProfile`: exponential smoothing `0.7·old + 0.3·new` (pitch and
energy rounded, speed kept unrounded), gender replaced, `samples`
incremented (`(existing.samples || 1) + 1`); a fresh entry spreads the
new profile with `samples = 1`. -/
def updateProfile (now : Nat) (userId : Option String) (newProfile : VoiceProfile)
    (cache : ProfileCache) : ProfileCache :=
  match cacheFind cache userId with
  | some existing =>
      cacheSet cache userId
        { pitch := jsRoundQ ((existing.pitch : ℚ) * (7/10) + (newProfile.pitch : ℚ) * (3/10))
          speed := JSNum.add (JSNum.mul existing.speed (.num (7/10)))
                     (JSNum.mul newProfile.speed (.num (3/10)))
          energy := JSNum.round (JSNum.add (JSNum.mul existing.energy (.num (7/10)))
                      (JSNum.mul newProfile.energy (.num (3/10))))
          gender := newProfile.gender
          timestamp := now
          samples := (if existing.samples = 0 then 1 else existing.samples) + 1 }
  | none =>
      cacheSet cache userId
        { pitch := newProfile.pitch, speed := newProfile.speed,
          energy := newProfile.energy, gender := newProfile.gender,
          timestamp := newProfile.timestamp, samples := 1 }

/-- The `try` body of `analyzeVoice`: detectors in source order, then the
profile record and the cache update. -/
def analyzeVoiceBody (sqrtFn : ℚ → ℚ) (now : Nat) (pcmBuffer : List Nat)
    (userId : Option String) (cache : ProfileCache) :
    Except Unit (VoiceProfile × ProfileCache) := do
  let pitch ← detectPitch pcmBuffer
  let speed ← detectSpeed pcmBuffer
  let energy ← detectEnergy sqrtFn pcmBuffer
  let gender := detectGender pitch
  let profile : VoiceProfile :=
    { pitch := pitch, speed := speed, energy := energy, gender := gender, timestamp := now }
  .ok (profile, updateProfile now userId profile cache)

/-- `analyzeVoice`: the `catch` arm returns the default profile and
leaves the cache untouched. -/
def analyzeVoice (sqrtFn : ℚ → ℚ) (now : Nat) (pcmBuffer : List Nat)
    (userId : Option String) (cache : ProfileCache) : VoiceProfile × ProfileCache :=
  match analyzeVoiceBody sqrtFn now pcmBuffer userId cache with
  | .ok r => r
  | .error _ => (getDefaultProfile now, cache)

/-- C6: an empty PCM buffer is NOT treated as an analysis failure.  None
of the detectors throws on it, so the `catch` arm is not taken: the code
returns a profile with `pitch = 20` (the autocorrelation argmax
degenerates to period 16 ⇒ 500 Hz ⇒ clamped +20), `gender = "female"`,
and `NaN` speed and energy (from the `0/0` divisions), and it CREATES a
cache entry for the speaker.  The claimed behaviour (neutral default
profile, cache untouched) is only exhibited on inputs whose detectors
throw, e.g. an odd-length buffer, as the final conjunct shows. -/
theorem c6_empty_input_not_treated_as_failure :
    analyzeVoice (fun q => q) 0 [] (some "userA") [] =
      ({ pitch := 20, speed := .nan, energy := .nan, gender := "female", timestamp := 0 },
       [(some "userA",
         { pitch := 20, speed := .nan, energy := .nan, gender := "female",
           timestamp := 0, samples := 1 })]) ∧
    getDefaultProfile 0 =
      { pitch := 0, speed := .num 1, energy := .num 0, gender := "neutral", timestamp := 0 } ∧
    analyzeVoice (fun q => q) 0 [7] (some "userA") [] = (getDefaultProfile 0, []) := by
  refine ⟨by with_unfolding_all decide, rfl, by with_unfolding_all decide⟩

/-- `Map.get` after `Map.set` at the same key. -/
theorem cacheFind_cacheSet (c : ProfileCache) (k : Option String) (v : CachedProfile) :
    cacheFind (cacheSet c k v) k = some v := by
  induction c with
  | nil => simp [cacheSet, cacheFind]
  | cons hd tl ih =>
      by_cases h : hd.1 = k
      · simp [cacheSet, h, cacheFind]
      · simpa [cacheSet, h, cacheFind] using ih

/-- C9: smoothing of a cached profile.  With a profile `A` cached for the
speaker and a newly analyzed profile `B`, the updated cache entry is
`pitch = round((7·A.pitch + 3·B.pitch)/10)` (i.e. `0.7·A + 0.3·B`
rounded), `energy` likewise rounded, `speed = (7·p + 3·q)/10` kept as an
unrounded float, `gender` replaced by `B.gender`, and the sample counter
incremented by one (cached entries always have `samples ≥ 1`). -/
theorem c9_update_profile_smoothing
    (cache : ProfileCache) (uid : Option String) (A : CachedProfile) (B : VoiceProfile)
    (now : Nat) (p q ea eb : ℚ)
    (hA : cacheFind cache uid = some A) (hs : 1 ≤ A.samples)
    (hAs : A.speed = .num p) (hBs : B.speed = .num q)
    (hAe : A.energy = .num ea) (hBe : B.energy = .num eb) :
    cacheFind (updateProfile now uid B cache) uid = some
      { pitch := jsRoundQ ((7 * A.pitch + 3 * B.pitch : ℚ) / 10)
        speed := .num ((7 * p + 3 * q) / 10)
        energy := .num ((jsRoundQ ((7 * ea + 3 * eb) / 10) : ℤ) : ℚ)
        gender := B.gender
        timestamp := now
        samples := A.samples + 1 } := by
  have hp : (A.pitch : ℚ) * (7/10) + (B.pitch : ℚ) * (3/10)
      = ((7 * A.pitch + 3 * B.pitch : ℤ) : ℚ) / 10 := by push_cast; ring
  have hsp : p * (7/10) + q * (3/10) = (7 * p + 3 * q) / 10 := by ring
  have he : ea * (7/10) + eb * (3/10) = (7 * ea + 3 * eb) / 10 := by ring
  have hn : (if A.samples = 0 then 1 else A.samples) = A.samples :=
    if_neg (by omega)
  unfold updateProfile
  rw [hA, cacheFind_cacheSet, hAs, hBs, hAe, hBe]
  simp only [JSNum.add, JSNum.mul, JSNum.round, hsp, he, hn]
  congr 1
  · unfold jsRoundQ
    congr 1
    push_cast at hp ⊢
    rw [hp]

/-- Witness for C9 at a concrete cache: `A = (pitch 10, speed 1,
energy 2, male, 3 samples)`, `B = (pitch 20, speed 1, energy 7, female)`
gives `(pitch 13, speed 1, energy 4, female, 4 samples)`. -/
theorem c9_update_profile_smoothing_witness :
    cacheFind [(some "u", ⟨10, .num 1, .num 2, "male", 0, 3⟩)] (some "u") =
        some ⟨10, .num 1, .num 2, "male", 0, 3⟩ ∧
    cacheFind (updateProfile 5 (some "u") ⟨20, .num 1, .num 7, "female", 5⟩
        [(some "u", ⟨10, .num 1, .num 2, "male", 0, 3⟩)]) (some "u") =
      some ⟨13, .num 1, .num 4, "female", 5, 4⟩ := by
  constructor
  · rfl
  · have h := c9_update_profile_smoothing
      [(some "u", ⟨10, .num 1, .num 2, "male", 0, 3⟩)] (some "u")
      ⟨10, .num 1, .num 2, "male", 0, 3⟩ ⟨20, .num 1, .num 7, "female", 5⟩
      5 1 1 2 7 rfl (by decide) rfl rfl rfl rfl
    rw [h]
    with_unfolding_all decide

/-!
## OutboundStreamer — `sendToOtherUser`
(src/bidirectional-processor.js 546–590; the part_000 variant at 465–518
differs only in `chunkSize = 320` and a pacing sleep)

The code base64-encodes the synthesized audio
(`audioBuffer.toString("base64")`) and then slices the *base64 string*
into `chunkSize`-character pieces, sending one `media` message per piece
and a single `mark` message afterwards.
-/

/-- The base64 alphabet. -/
def base64Alphabet : List Char :=
  "ABCDEFGHIJKLMNOPQRSTUVWXYZabcdefghijklmnopqrstuvwxyz0123456789+/".toList

/-- One base64 digit. -/
def b64Char (n : Nat) : Char := base64Alphabet.getD n 'A'

/-- RFC 4648 base64 with padding, as `Buffer.toString("base64")`
produces: 3 input bytes become 4 characters; a 1- or 2-byte tail is
padded with `=`. -/
def base64Encode : List Nat → List Char
  | [] => []
  | [a] =>
      let a := a % 256
      [b64Char (a / 4), b64Char (a % 4 * 16), '=', '=']
  | [a, b] =>
      let a := a % 256
      let b := b % 256
      [b64Char (a / 4), b64Char (a % 4 * 16 + b / 16), b64Char (b % 16 * 4), '=']
  | a :: b :: c :: rest =>
      let a := a % 256
      let b := b % 256
      let c := c % 256
      b64Char (a / 4) :: b64Char (a % 4 * 16 + b / 16) ::
        b64Char (b % 16 * 4 + c / 64) :: b64Char (c % 64) :: base64Encode rest

/-- Base64 length: `4 · ⌈L/3⌉` characters for `L` input bytes. -/
theorem base64Encode_length (l : List Nat) :
    (base64Encode l).length = 4 * ((l.length + 2) / 3) := by
  induction l using base64Encode.induct with
  | case1 => simp [base64Encode]
  | case2 a => simp [base64Encode]
  | case3 a b => simp [base64Encode]
  | case4 a b c rest ih =>
      simp only [base64Encode, List.length_cons, ih]
      have h3 : rest.length + 2 + 1 + 1 + 1 = rest.length + 2 + 3 := by omega
      rw [h3, Nat.add_div_right _ (by omega)]
      ring

/-- The `for (i = 0; i < s.length; i += chunkSize) s.slice(i, i+chunkSize)`
loop: split a list into consecutive pieces of `n` elements (last piece
shorter).  The JS loop never runs with `n = 0`; that case is mapped to no
pieces. -/
def chunksOf {α : Type} : Nat → List α → List (List α)
  | _, [] => []
  | 0, _ :: _ => []
  | n + 1, a :: rest =>
      (a :: rest).take (n + 1) :: chunksOf (n + 1) ((a :: rest).drop (n + 1))
termination_by _ l => l.length
decreasing_by
  simp only [List.length_drop, List.length_cons]
  omega

/-- `⌈len/n⌉` pieces. -/
theorem chunksOf_length {α : Type} (n : Nat) (hn : 0 < n) (l : List α) :
    (chunksOf n l).length = (l.length + n - 1) / n := by
  match l, n with
  | [], n =>
      simp only [chunksOf, List.length_nil, List.length]
      exact (Nat.div_eq_of_lt (by omega)).symm
  | _ :: _, 0 => omega
  | a :: rest, n + 1 =>
      have ih := chunksOf_length (n + 1) hn ((a :: rest).drop (n + 1))
      simp only [chunksOf, List.length_cons, ih, List.length_drop]
      rcases le_or_lt (rest.length + 1) (n + 1) with hle | hgt
      · have h1 : rest.length + 1 - (n + 1) = 0 := by omega
        rw [h1]
        have h2 : (0 + (n + 1) - 1) / (n + 1) = 0 := Nat.div_eq_of_lt (by omega)
        have h3 : (rest.length + 1 + (n + 1) - 1) / (n + 1) = 1 :=
          Nat.div_eq_of_lt_le (by omega) (by omega)
        rw [h2, h3]
      · have h2 : rest.length + 1 - (n + 1) + (n + 1) - 1 = rest.length := by omega
        have h3 : rest.length + 1 + (n + 1) - 1 = rest.length + (n + 1) := by omega
        rw [h2, h3, Nat.add_div_right _ hn]
termination_by l.length
decreasing_by
  simp only [List.length_drop, List.length_cons]
  omega

/-- Messages on a leg's outbound transport. -/
inductive OutMsg where
  | media : Option String → String → OutMsg
  | mark : Option String → String → OutMsg
deriving DecidableEq, Repr

/-- Is this a `media` event message? -/
def OutMsg.isMedia : OutMsg → Bool
  | media _ _ => true
  | _ => false

/-- Is this a `mark` event message? -/
def OutMsg.isMark : OutMsg → Bool
  | mark _ _ => true
  | _ => false

/-- The fields of the peer connection that `sendToOtherUser` and
`processBuffer` read (`otherConnection.ws.readyState`,
`otherConnection.streamSid`, `otherConnection.myLanguage`,
`otherConnection.userType`). -/
structure PeerInfo where
  wsOpen : Bool
  streamSid : Option String
  myLanguage : Option String
  userType : Option String
deriving DecidableEq, Repr

/-- `sendToOtherUser`: precondition checks (absent peer/socket are the
caller's guard; a non-open `readyState` returns without sending), then
one `media` message per `chunkSize = 160` characters of the base64
string, then one `mark` named `audio_complete_<Date.now()>`.  A `ws.send`
throw (`sendFails`) is caught inside the function: the send loop is
abandoned and `stats.audiosSent` is not incremented — the returned `Bool`
says whether the counter increment was reached. -/
def sendToOtherUser (now : Nat) (audio : List Nat) (other : PeerInfo)
    (sendFails : Bool) : List OutMsg × Bool :=
  if other.wsOpen = false then ([], false)
  else if sendFails then ([], false)
  else
    let base64Audio := base64Encode audio
    let msgs := (chunksOf 160 base64Audio).map
      (fun chunk => OutMsg.media other.streamSid (String.mk chunk))
    (msgs ++ [OutMsg.mark other.streamSid (String.append "audio_complete_" (toString now))], true)

/-- Every message produced by the media-chunk loop is a `media` message. -/
theorem filter_isMedia_of_map_media (sid : Option String) (cs : List (List Char)) :
    ((cs.map (fun chunk => OutMsg.media sid (String.mk chunk))).filter
        OutMsg.isMedia).length = cs.length := by
  induction cs with
  | nil => rfl
  | cons c cs ih => simp [OutMsg.isMedia, ih]

/-- No message produced by the media-chunk loop is a `mark` message. -/
theorem filter_isMark_of_map_media (sid : Option String) (cs : List (List Char)) :
    ((cs.map (fun chunk => OutMsg.media sid (String.mk chunk))).filter
        OutMsg.isMark).length = 0 := by
  induction cs with
  | nil => rfl
  | cons c cs ih => simp [OutMsg.isMark, ih]

/-- C8 (amended): for a payload of byte length `L` sent to a reachable
peer, `sendToOtherUser` emits `⌈B/160⌉` media messages where
`B = 4·⌈L/3⌉` is the length of the *base64 encoding* of the payload (the
code slices the base64 string, not the raw bytes), followed by exactly
one mark as the final message. -/
theorem c8_send_chunk_count (now : Nat) (audio : List Nat) (other : PeerInfo)
    (h : other.wsOpen = true) :
    ((sendToOtherUser now audio other false).1.filter OutMsg.isMedia).length
        = (4 * ((audio.length + 2) / 3) + 159) / 160 ∧
    ((sendToOtherUser now audio other false).1.filter OutMsg.isMark).length = 1 ∧
    (sendToOtherUser now audio other false).1.getLast?
        = some (OutMsg.mark other.streamSid
            (String.append "audio_complete_" (toString now))) := by
  have hsend : (sendToOtherUser now audio other false).1 =
      (chunksOf 160 (base64Encode audio)).map
        (fun chunk => OutMsg.media other.streamSid (String.mk chunk)) ++
      [OutMsg.mark other.streamSid (String.append "audio_complete_" (toString now))] := by
    simp [sendToOtherUser, h]
  rw [hsend]
  refine ⟨?_, ?_, ?_⟩
  · rw [List.filter_append, List.length_append, filter_isMedia_of_map_media]
    have hone : (([OutMsg.mark other.streamSid
        (String.append "audio_complete_" (toString now))]).filter
          OutMsg.isMedia).length = 0 := by
      simp [OutMsg.isMedia]
    rw [hone, chunksOf_length 160 (by omega), base64Encode_length]
    omega
  · rw [List.filter_append, List.length_append, filter_isMark_of_map_media]
    simp [OutMsg.isMark]
  · exact List.getLast?_concat _

/-- Witness for C8 (amended) at a 4-byte payload: `⌈4/3⌉·4 = 8` base64
characters fit in one 160-character chunk, so one media message plus the
final mark. -/
theorem c8_send_chunk_count_witness :
    (⟨true, some "MZ", some "en", some "receiver"⟩ : PeerInfo).wsOpen = true ∧
    ((sendToOtherUser 3 [1, 2, 3, 4]
        ⟨true, some "MZ", some "en", some "receiver"⟩ false).1.filter
          OutMsg.isMedia).length
        = (4 * ((([1, 2, 3, 4] : List Nat).length + 2) / 3) + 159) / 160 ∧
    ((sendToOtherUser 3 [1, 2, 3, 4]
        ⟨true, some "MZ", some "en", some "receiver"⟩ false).1.filter
          OutMsg.isMark).length = 1 ∧
    (sendToOtherUser 3 [1, 2, 3, 4]
        ⟨true, some "MZ", some "en", some "receiver"⟩ false).1.getLast?
        = some (OutMsg.mark (some "MZ") (String.append "audio_complete_" (toString 3))) :=
  ⟨rfl, c8_send_chunk_count 3 [1, 2, 3, 4] ⟨true, some "MZ", some "en", some "receiver"⟩ rfl⟩

/-- C8 counterexample to the claim as stated: a synthesized payload of
`L = 160` bytes with frame size `F = 160` produces TWO media messages,
not `⌈L/F⌉ = 1`, because the 160 bytes become `4·⌈160/3⌉ = 216` base64
characters, which the loop slices into two 160-character pieces. -/
theorem c8_byte_length_chunk_count_cex :
    ((sendToOtherUser 0 (List.replicate 160 7)
        ⟨true, some "MZ", some "en", some "receiver"⟩ false).1.filter
          OutMsg.isMedia).length = 2 ∧
    ((List.replicate 160 (7 : Nat)).length + 160 - 1) / 160 = 1 := by
  constructor
  · have hsend : (sendToOtherUser 0 (List.replicate 160 7)
        (⟨true, some "MZ", some "en", some "receiver"⟩ : PeerInfo) false).1 =
        (chunksOf 160 (base64Encode (List.replicate 160 7))).map
          (fun chunk => OutMsg.media (some "MZ") (String.mk chunk)) ++
        [OutMsg.mark (some "MZ") (String.append "audio_complete_" (toString 0))] := by
      simp [sendToOtherUser]
    rw [hsend, List.filter_append, List.length_append, filter_isMedia_of_map_media]
    have hone : (([OutMsg.mark (some "MZ")
        (String.append "audio_complete_" (toString 0))]).filter
          OutMsg.isMedia).length = 0 := by
      simp [OutMsg.isMedia]
    rw [hone, chunksOf_length 160 (by omega), base64Encode_length]
    simp
  · decide

/-!
## ConnectionProcessor — `AdvancedVoiceProcessor`
(src/bidirectional-processor.js; constants `maxBufferDuration = 2000`,
`minBufferDuration = 500` from that file's constructor)

The external collaborators (speech recognition, translation, synthesis,
the peer's socket) are modelled by an environment holding each call's
outcome; `.failure` is a rejected promise / thrown error.  The UI
side-channel (`global.addTranslation`) stores transcripts outside the
processor and is not modelled.  The `catch` block of `processBuffer`
(which increments `stats.errors`) is unreachable for collaborator
failures because every called helper (`transcribeAudioEnhanced`,
`translateText`, `generateHumanLikeSpeech` with its
`generateSimpleSpeech` fallback, `sendToOtherUser`) catches its own
errors and returns a fallback value instead of re-throwing.
-/

/-- Outcome of one external-service call: the parsed response, or a
thrown error / rejected promise. -/
inductive ExtResult (α : Type) where
  | ok : α → ExtResult α
  | failure : ExtResult α
deriving DecidableEq, Repr

/-- One flush's environment: outcomes of the external calls, the peer
lookup (`activeSessions.get(roomId)` and the opposite slot), `Math.sqrt`,
and `Date.now()`. -/
structure PipelineEnv where
  sqrtFn : ℚ → ℚ
  recognizeResult : ExtResult (List (Option String))
  translateResult : ExtResult String
  ttsResult : ExtResult (List Nat)
  ttsFallbackResult : ExtResult (List Nat)
  sendFails : Bool
  sessionPresent : Bool
  otherConn : Option PeerInfo
  now : Nat

/-- `transcribeAudioEnhanced`: on a thrown recognition error the `catch`
returns null; an absent/empty `response.results` is null; otherwise the
per-result transcripts (`alternatives[0]?.transcript`) are kept if truthy
(`filter(Boolean)` drops missing and empty strings) and joined with a
space.  The audio and language only shape the request, not the modelled
response. -/
def transcribeAudioEnhanced (env : PipelineEnv) (audioBuffer : List Nat)
    (language : String) : Option String :=
  match env.recognizeResult with
  | .failure => none
  | .ok results =>
      if results.isEmpty then none
      else some (String.intercalate " "
        ((results.filterMap id).filter (fun t => t ≠ "")))

/-- `language.split("-")[0]`: the base subtag before the first `-`. -/
def baseTag (s : String) : String :=
  String.mk (s.toList.takeWhile (fun c => c ≠ '-'))

/-- `translateText`: same base subtag returns the input unchanged without
calling the translation service; a translation failure is caught and the
original text returned.  The `Bool` records whether the external service
was invoked. -/
def translateText (env : PipelineEnv) (text fromLanguage toLanguage : String) :
    String × Bool :=
  let fromBase := baseTag fromLanguage
  let toBase := baseTag toLanguage
  if fromBase = toBase then (text, false)
  else
    match env.translateResult with
    | .ok translation => (translation, true)
    | .failure => (text, true)

/-- `generateHumanLikeSpeech`: a synthesis failure is caught and falls
back to `generateSimpleSpeech`, whose own failure is caught and yields
null.  (Voice selection and SSML shaping affect only the request
contents, not the control flow modelled here.) -/
def generateHumanLikeSpeech (env : PipelineEnv) (text language : String)
    (voiceProfile : VoiceProfile) : Option (List Nat) :=
  match env.ttsResult with
  | .ok audio => some audio
  | .failure =>
      match env.ttsFallbackResult with
      | .ok audio => some audio
      | .failure => none

/-- The `stats` counters. -/
structure Stats where
  packetsReceived : Nat
  transcriptions : Nat
  translations : Nat
  audiosSent : Nat
  errors : Nat
deriving DecidableEq, Repr

/-- All counters start at zero. -/
def Stats.init : Stats := ⟨0, 0, 0, 0, 0⟩

/-- Per-leg processor state (the `AdvancedVoiceProcessor` instance
fields; `silenceArmed` models whether a `silenceTimeout` is pending). -/
structure ProcState where
  roomId : Option String
  userType : Option String
  myLanguage : Option String
  streamSid : Option String
  callSid : Option String
  userId : Option String
  audioBuffer : List (List Nat)
  bufferDuration : Nat
  isProcessing : Bool
  silenceArmed : Bool
  stats : Stats
  profiles : ProfileCache
deriving DecidableEq, Repr

/-- Constructor state: every connection field `null`, empty buffer, not
processing, no pending timer. -/
def initProcState : ProcState :=
  { roomId := none, userType := none, myLanguage := none, streamSid := none,
    callSid := none, userId := none, audioBuffer := [], bufferDuration := 0,
    isProcessing := false, silenceArmed := false, stats := Stats.init,
    profiles := [] }

/-- `this.maxBufferDuration` (ms). -/
def maxBufferDuration : Nat := 2000

/-- `this.minBufferDuration` (ms). -/
def minBufferDuration : Nat := 500

/-- A `start` event: `streamSid`, `start.callSid` and the
`start.customParameters`. -/
structure StartEvent where
  streamSid : Option String
  callSid : Option String
  roomId : Option String
  userType : Option String
  myLanguage : Option String
deriving DecidableEq, Repr

/-- JS template-literal stringification of a possibly-null value
(`` `${null}` `` is `"null"`). -/
def jsTemplateStr : Option String → String
  | none => "null"
  | some s => s

/-- `handleStart`: the source assigns
`this.userId = `${this.roomId}_${this.userType}`` BEFORE overwriting
`this.roomId`/`this.userType`/`this.myLanguage` from the event's
`customParameters` (identical in both processor variants).  Registration
into the session registry is a separate step (`registerConnection`,
modelled with the registry below) and is skipped when `myLanguage` is
absent. -/
def handleStart (s : ProcState) (d : StartEvent) : ProcState :=
  let s1 := { s with
    streamSid := d.streamSid
    callSid := d.callSid
    userId := some (jsTemplateStr s.roomId ++ "_" ++ jsTemplateStr s.userType) }
  { s1 with roomId := d.roomId, userType := d.userType, myLanguage := d.myLanguage }

/-- C3: the speaker identifier is NOT derived from the start event's
room and leg type.  `handleStart` computes `userId` from the processor's
pre-start fields (both still `null`), so after a start event carrying
`roomId = "room1"`, `userType = "caller"` the cached-voice-profile key is
the constant string `"null_null"`, not `"room1_caller"` — even though
the same handler then sets `roomId`/`userType` to the event's values. -/
theorem c3_user_id_derived_from_stale_state :
    (handleStart initProcState
        ⟨some "MZ1", some "CA1", some "room1", some "caller", some "en"⟩).userId
      = some "null_null" ∧
    (handleStart initProcState
        ⟨some "MZ1", some "CA1", some "room1", some "caller", some "en"⟩).roomId
      = some "room1" ∧
    (handleStart initProcState
        ⟨some "MZ1", some "CA1", some "room1", some "caller", some "en"⟩).userType
      = some "caller" ∧
    ("null_null" : String) ≠ "room1" ++ "_" ++ "caller" := by
  refine ⟨rfl, rfl, rfl, by decide⟩

/-- C10: if the two language tags share their base subtag (the part
before the first `-`), `translateText` returns the text unchanged and
does not invoke the external translation service. -/
theorem c10_translate_same_base_identity
    (env : PipelineEnv) (text fromLanguage toLanguage : String)
    (h : baseTag fromLanguage = baseTag toLanguage) :
    translateText env text fromLanguage toLanguage = (text, false) := by
  simp [translateText, h]

/-- Witness for C10 at the regional variants `en-US`/`en-GB`. -/
theorem c10_translate_same_base_identity_witness :
    baseTag "en-US" = baseTag "en-GB" ∧
    translateText
        ⟨fun q => q, .failure, .ok "BONJOUR", .failure, .failure, false, true, none, 0⟩
        "hello" "en-US" "en-GB" = ("hello", false) :=
  ⟨by decide, c10_translate_same_base_identity
    ⟨fun q => q, .failure, .ok "BONJOUR", .failure, .failure, false, true, none, 0⟩
    "hello" "en-US" "en-GB" (by decide)⟩

/-- `writeInt16LE`: a sample value as two little-endian bytes (two's
complement). -/
def int16ToBytesLE (v : Int) : List Nat :=
  let u := (v % 65536).toNat
  [u % 256, u / 256]

/-- `decodeMulaw` as the byte buffer it actually returns (`pcmBuffer`):
two bytes per input byte. -/
def decodeMulawBytes (bs : List Nat) : List Nat :=
  (bs.map mulawToLinear).flatMap int16ToBytesLE

/-- Pipeline stages reached during one flush, in order. -/
inductive Stage where
  | decode
  | analyze
  | transcribe
  | translate
  | synthesize
  | send
deriving DecidableEq, Repr

/-- The synchronous prefix of `processBuffer`, up to the first `await`:
the re-entrancy guard (`audioBuffer` empty, `myLanguage` missing, or
`isProcessing` already set → plain `return`), then `isProcessing = true`,
timer cancellation, `Buffer.concat` of the segment, buffer and duration
reset, and the minimum-duration abandon (which clears `isProcessing`).
The returned segment is `some` exactly when the pipeline is entered. -/
def processBufferEntry (s : ProcState) : ProcState × Option (List Nat) :=
  if s.audioBuffer = [] ∨ s.myLanguage = none ∨ s.isProcessing = true then
    (s, none)
  else
    let mulawAudio := s.audioBuffer.flatten
    let bufferLengthMs := s.bufferDuration
    let s1 := { s with isProcessing := true, silenceArmed := false,
                       audioBuffer := [], bufferDuration := 0 }
    if bufferLengthMs < minBufferDuration then
      ({ s1 with isProcessing := false }, none)
    else
      (s1, some mulawAudio)

/-- The `try`/`finally` body of `processBuffer` once a segment has been
swapped out: decode, analyze (updating the profile cache), transcribe
(abandon on null or too-short transcript), session and peer lookup
(abandon when absent or language-less — the empty string is falsy in
JS), translate, synthesize (abandon on null audio), send.  Every exit
path clears `isProcessing` (the explicit early-return assignments and
the `finally`); `stats.errors` is untouched because no called helper
re-throws. -/
def processBufferRun (env : PipelineEnv) (mulawAudio : List Nat) (s : ProcState) :
    ProcState × List Stage × List OutMsg :=
  let pcmAudio := decodeMulawBytes mulawAudio
  let lang := jsTemplateStr s.myLanguage
  let analyzed := analyzeVoice env.sqrtFn env.now pcmAudio s.userId s.profiles
  let voiceProfile := analyzed.1
  let s := { s with profiles := analyzed.2 }
  let trace0 := [Stage.decode, Stage.analyze, Stage.transcribe]
  match transcribeAudioEnhanced env pcmAudio lang with
  | none => ({ s with isProcessing := false }, trace0, [])
  | some transcript =>
      if transcript.trim.length < 2 then
        ({ s with isProcessing := false }, trace0, [])
      else
        let s := { s with stats :=
          { s.stats with transcriptions := s.stats.transcriptions + 1 } }
        if env.sessionPresent = false then
          ({ s with isProcessing := false }, trace0, [])
        else
          match env.otherConn with
          | none => ({ s with isProcessing := false }, trace0, [])
          | some other =>
              match other.myLanguage with
              | none => ({ s with isProcessing := false }, trace0, [])
              | some otherLang =>
                  if otherLang = "" then
                    ({ s with isProcessing := false }, trace0, [])
                  else
                    let translatedText := (translateText env transcript lang otherLang).1
                    let s := { s with stats :=
                      { s.stats with translations := s.stats.translations + 1 } }
                    let trace1 := trace0 ++ [Stage.translate, Stage.synthesize]
                    match generateHumanLikeSpeech env translatedText otherLang voiceProfile with
                    | none => ({ s with isProcessing := false }, trace1, [])
                    | some translatedAudio =>
                        let sendRes := sendToOtherUser env.now translatedAudio other env.sendFails
                        let s := if sendRes.2 then
                            { s with stats :=
                              { s.stats with audiosSent := s.stats.audiosSent + 1 } }
                          else s
                        ({ s with isProcessing := false },
                         trace1 ++ [Stage.send], sendRes.1)

/-- `processBuffer`: guard-and-swap, then the pipeline when a segment was
produced.  The middle component lists the stages that ran. -/
def processBuffer (env : PipelineEnv) (s : ProcState) :
    ProcState × List Stage × List OutMsg :=
  match processBufferEntry s with
  | (s1, none) => (s1, [], [])
  | (s1, some seg) => processBufferRun env seg s1

/-- `handleMedia`: drop the frame when `myLanguage` is unset; otherwise
count it, append the chunk, add 20 ms, cancel any pending silence timer;
then flush immediately when the max-duration trigger fires and the leg is
not busy, or (re)arm the silence timer. -/
def handleMedia (env : PipelineEnv) (s : ProcState) (chunk : List Nat) :
    ProcState × List Stage × List OutMsg :=
  if s.myLanguage = none then (s, [], [])
  else
    let s := { s with
      stats := { s.stats with packetsReceived := s.stats.packetsReceived + 1 }
      audioBuffer := s.audioBuffer ++ [chunk]
      bufferDuration := s.bufferDuration + 20
      silenceArmed := false }
    if maxBufferDuration ≤ s.bufferDuration ∧ s.isProcessing = false then
      processBuffer env s
    else
      ({ s with silenceArmed := true }, [], [])

/-- The armed silence timer firing after `800` ms without frames: flush
only if the buffer is non-empty, the leg is not busy, and at least
`minBufferDuration` ms are buffered. -/
def silenceTimerFire (env : PipelineEnv) (s : ProcState) :
    ProcState × List Stage × List OutMsg :=
  if s.silenceArmed = false then (s, [], [])
  else
    let s := { s with silenceArmed := false }
    if s.audioBuffer ≠ [] ∧ s.isProcessing = false ∧
        minBufferDuration ≤ s.bufferDuration then
      processBuffer env s
    else
      (s, [], [])

/-- A sequence of inbound frames, collecting the stages of any flushes
they trigger. -/
def runMedia (env : PipelineEnv) : ProcState → List (List Nat) → ProcState × List Stage
  | s, [] => (s, [])
  | s, chunk :: rest =>
      let r := handleMedia env s chunk
      let next := runMedia env r.1 rest
      (next.1, r.2.1 ++ next.2)

/-- While a flush pipeline is in flight (`isProcessing = true`), an
inbound frame only accumulates: the frame is appended, 20 ms added, the
silence timer re-armed, and no flush starts. -/
theorem handleMedia_while_busy (env : PipelineEnv) (s : ProcState) (c : List Nat)
    (l : String) (h1 : s.isProcessing = true) (h2 : s.myLanguage = some l) :
    handleMedia env s c =
      ({ s with
          stats := { s.stats with packetsReceived := s.stats.packetsReceived + 1 }
          audioBuffer := s.audioBuffer ++ [c]
          bufferDuration := s.bufferDuration + 20
          silenceArmed := true }, [], []) := by
  unfold handleMedia
  rw [h2]
  rw [if_neg (by simp)]
  rw [h1]
  rw [if_neg (by simp)]

/-- Frames arriving during a busy period all accumulate and never start a
pipeline. -/
theorem runMedia_while_busy (env : PipelineEnv) (l : String) :
    ∀ (frames : List (List Nat)) (s : ProcState),
      s.isProcessing = true → s.myLanguage = some l →
      (runMedia env s frames).1.isProcessing = true ∧
      (runMedia env s frames).2 = [] ∧
      (runMedia env s frames).1.audioBuffer = s.audioBuffer ++ frames ∧
      (runMedia env s frames).1.bufferDuration
        = s.bufferDuration + 20 * frames.length ∧
      (runMedia env s frames).1.myLanguage = some l := by
  intro frames
  induction frames with
  | nil =>
      intro s h1 h2
      simp [runMedia, h1, h2]
  | cons c rest ih =>
      intro s h1 h2
      have hstep := handleMedia_while_busy env s c l h1 h2
      have hrec := ih ({ s with
          stats := { s.stats with packetsReceived := s.stats.packetsReceived + 1 }
          audioBuffer := s.audioBuffer ++ [c]
          bufferDuration := s.bufferDuration + 20
          silenceArmed := true }) h1 h2
      simp only [runMedia, hstep]
      refine ⟨hrec.1, by simpa using hrec.2.1, ?_, ?_, hrec.2.2.2.2⟩
      · rw [hrec.2.2.1]
        simp [List.append_assoc]
      · rw [hrec.2.2.2.1]
        simp [List.length_cons]
        ring

/-- C5: per-leg single-flight flushing.
(1) Entered while busy or with an empty segment buffer, `processBuffer`
returns unchanged without starting a pipeline.
(2) Otherwise (language set), it empties the buffer and zeroes the
duration before any external call; it sets `busy` and hands the
concatenated segment to the pipeline exactly when the swapped-out
duration reaches `minBufferDuration`, and abandons with `busy` cleared
otherwise.
(3) A second flush trigger issued while the first pipeline is in flight
is a no-op, so exactly one pipeline invocation results.
(4) Frames arriving while busy accumulate into a fresh segment with no
flush started.
(5) Once the first pipeline completes (`busy` cleared by its `finally`),
a flush trigger hands exactly the accumulated fresh segment to the
pipeline (when it meets the minimum duration). -/
theorem c5_flush_single_flight :
    (∀ s : ProcState, s.isProcessing = true ∨ s.audioBuffer = [] →
        processBufferEntry s = (s, none)) ∧
    (∀ (s : ProcState) (l : String),
        s.isProcessing = false → s.audioBuffer ≠ [] → s.myLanguage = some l →
        (processBufferEntry s).1.audioBuffer = [] ∧
        (processBufferEntry s).1.bufferDuration = 0 ∧
        (s.bufferDuration < minBufferDuration →
          (processBufferEntry s).1.isProcessing = false ∧
          (processBufferEntry s).2 = none) ∧
        (minBufferDuration ≤ s.bufferDuration →
          (processBufferEntry s).1.isProcessing = true ∧
          (processBufferEntry s).2 = some s.audioBuffer.flatten)) ∧
    (∀ (s : ProcState) (l : String),
        s.isProcessing = false → s.audioBuffer ≠ [] → s.myLanguage = some l →
        minBufferDuration ≤ s.bufferDuration →
        processBufferEntry (processBufferEntry s).1 = ((processBufferEntry s).1, none)) ∧
    (∀ (env : PipelineEnv) (s : ProcState) (l : String) (frames : List (List Nat)),
        s.isProcessing = true → s.myLanguage = some l →
        (runMedia env s frames).1.isProcessing = true ∧
        (runMedia env s frames).2 = [] ∧
        (runMedia env s frames).1.audioBuffer = s.audioBuffer ++ frames ∧
        (runMedia env s frames).1.bufferDuration
          = s.bufferDuration + 20 * frames.length) ∧
    (∀ (env : PipelineEnv) (s : ProcState) (l : String) (frames : List (List Nat)),
        s.isProcessing = true → s.myLanguage = some l →
        s.audioBuffer ++ frames ≠ [] →
        minBufferDuration ≤ s.bufferDuration + 20 * frames.length →
        (processBufferEntry
            { (runMedia env s frames).1 with isProcessing := false }).2
          = some (s.audioBuffer ++ frames).flatten) := by
  have entryNoop : ∀ s : ProcState, s.isProcessing = true ∨ s.audioBuffer = [] →
      processBufferEntry s = (s, none) := by
    intro s h
    unfold processBufferEntry
    rcases h with h | h
    · rw [if_pos (Or.inr (Or.inr h))]
    · rw [if_pos (Or.inl h)]
  have entryFlush : ∀ (s : ProcState) (l : String),
      s.isProcessing = false → s.audioBuffer ≠ [] → s.myLanguage = some l →
      (processBufferEntry s).1.audioBuffer = [] ∧
      (processBufferEntry s).1.bufferDuration = 0 ∧
      (s.bufferDuration < minBufferDuration →
        (processBufferEntry s).1.isProcessing = false ∧
        (processBufferEntry s).2 = none) ∧
      (minBufferDuration ≤ s.bufferDuration →
        (processBufferEntry s).1.isProcessing = true ∧
        (processBufferEntry s).2 = some s.audioBuffer.flatten) := by
    intro s l h1 h2 h3
    unfold processBufferEntry
    rw [if_neg (by simp [h1, h2, h3])]
    by_cases hm : s.bufferDuration < minBufferDuration
    · rw [if_pos hm]
      refine ⟨rfl, rfl, fun _ => ⟨rfl, rfl⟩, fun hge => absurd hge (by omega)⟩
    · rw [if_neg hm]
      refine ⟨rfl, rfl, fun hlt => absurd hlt hm, fun _ => ⟨rfl, rfl⟩⟩
  refine ⟨entryNoop, entryFlush, ?_, ?_, ?_⟩
  · intro s l h1 h2 h3 h4
    exact entryNoop _ (Or.inl ((entryFlush s l h1 h2 h3).2.2.2 h4).1)
  · intro env s l frames h1 h2
    have h := runMedia_while_busy env l frames s h1 h2
    exact ⟨h.1, h.2.1, h.2.2.1, h.2.2.2.1⟩
  · intro env s l frames h1 h2 hne hmin
    have h := runMedia_while_busy env l frames s h1 h2
    have hbuf : ({ (runMedia env s frames).1 with
        isProcessing := false } : ProcState).audioBuffer = s.audioBuffer ++ frames :=
      h.2.2.1
    have hlang : ({ (runMedia env s frames).1 with
        isProcessing := false } : ProcState).myLanguage = some l :=
      h.2.2.2.2
    have hdur : ({ (runMedia env s frames).1 with
        isProcessing := false } : ProcState).bufferDuration
        = s.bufferDuration + 20 * frames.length :=
      h.2.2.2.1
    have hres := (entryFlush _ l rfl (by rw [hbuf]; exact hne) hlang).2.2.2
      (by rw [hdur]; exact hmin)
    rw [hres.2, hbuf]

/-- A leg already mid-flight, with one queued chunk. -/
def busyLeg : ProcState :=
  { initProcState with audioBuffer := [[1]], isProcessing := true }

/-- A ready leg holding a 500 ms two-chunk segment. -/
def readyLeg : ProcState :=
  { initProcState with
      myLanguage := some "en"
      audioBuffer := [[1], [2]]
      bufferDuration := 500 }

/-- A mid-flight leg with 480 ms already accumulated. -/
def busyLeg480 : ProcState :=
  { initProcState with
      myLanguage := some "en"
      isProcessing := true
      bufferDuration := 480 }

/-- An environment in which every external call fails. -/
def quietEnv : PipelineEnv :=
  ⟨fun q => q, .failure, .failure, .failure, .failure, false, false, none, 0⟩

/-- Witness for C5: a busy leg's trigger is a no-op; a ready leg with a
500 ms two-chunk segment flushes it as one segment and a second trigger
during flight is a no-op; a frame arriving while busy accumulates and is
flushed as the next segment once the first flight completes. -/
theorem c5_flush_single_flight_witness :
    processBufferEntry busyLeg = (busyLeg, none) ∧
    (processBufferEntry readyLeg).2 = some [1, 2] ∧
    processBufferEntry (processBufferEntry readyLeg).1
      = ((processBufferEntry readyLeg).1, none) ∧
    (runMedia quietEnv busyLeg480 [[3]]).2 = [] ∧
    (processBufferEntry
        { (runMedia quietEnv busyLeg480 [[3]]).1 with isProcessing := false }).2
      = some [3] := by
  refine ⟨?_, ?_, ?_, ?_, ?_⟩
  · exact c5_flush_single_flight.1 busyLeg (Or.inl rfl)
  · have h := ((c5_flush_single_flight.2.1 readyLeg "en"
      rfl (by decide) rfl).2.2.2 (by decide)).2
    simpa [readyLeg] using h
  · exact c5_flush_single_flight.2.2.1 readyLeg "en" rfl (by decide) rfl (by decide)
  · exact (c5_flush_single_flight.2.2.2.1 quietEnv busyLeg480 "en" [[3]] rfl rfl).2.1
  · have h := c5_flush_single_flight.2.2.2.2 quietEnv busyLeg480 "en" [[3]]
      rfl rfl (by decide) (by decide)
    simpa [busyLeg480, initProcState] using h

/-- Every exit path of the pipeline body clears `isProcessing` and leaves
`stats.errors` untouched (each stage helper catches its own failure and
substitutes a fallback, so the outer `catch` that counts errors never
runs). -/
theorem processBufferRun_clears_busy_keeps_errors
    (env : PipelineEnv) (seg : List Nat) (s : ProcState) :
    (processBufferRun env seg s).1.isProcessing = false ∧
    (processBufferRun env seg s).1.stats.errors = s.stats.errors := by
  unfold processBufferRun
  dsimp only
  repeat' split
  all_goals exact ⟨rfl, rfl⟩

/-- The guard-and-swap prefix never touches the counters. -/
theorem processBufferEntry_keeps_stats (s : ProcState) :
    (processBufferEntry s).1.stats = s.stats := by
  unfold processBufferEntry
  dsimp only
  repeat' split
  all_goals rfl

/-- If the prefix declines to start a pipeline, `isProcessing` can only
remain `true` when it already was `true` (the re-entrant no-op). -/
theorem processBufferEntry_none_busy (s s1 : ProcState)
    (h : processBufferEntry s = (s1, none)) :
    s1.isProcessing = true → s.isProcessing = true := by
  unfold processBufferEntry at h
  split at h
  · rw [Prod.mk.injEq] at h
    rw [← h.1]
    exact id
  · dsimp only at h
    split at h
    · rw [Prod.mk.injEq] at h
      rw [← h.1]
      intro hh
      simp at hh
    · rw [Prod.mk.injEq] at h
      exact absurd h.2 (by simp)

/-- C7 (amended): no collaborator failure is ever counted in
`stats.errors` or escapes `processBuffer` — each stage helper
(`transcribeAudioEnhanced`, `translateText`, `generateHumanLikeSpeech`
with its fallback, `sendToOtherUser`) catches its own error and returns a
fallback, so the flush-boundary `catch` that increments `stats.errors`
never runs; and `isProcessing` is false after `processBuffer` returns on
every path that was not the re-entrant no-op (which leaves the flag to
the in-flight flush that owns it). -/
theorem c7_stage_failures_swallowed_not_counted (env : PipelineEnv) (s : ProcState) :
    (processBuffer env s).1.stats.errors = s.stats.errors ∧
    ((processBuffer env s).1.isProcessing = true → s.isProcessing = true) := by
  unfold processBuffer
  cases hE : processBufferEntry s with
  | mk s1 r =>
    cases r with
    | none =>
        constructor
        · have := processBufferEntry_keeps_stats s
          rw [hE] at this
          rw [this]
        · exact processBufferEntry_none_busy s s1 hE
    | some seg =>
        have hrun := processBufferRun_clears_busy_keeps_errors env seg s1
        constructor
        · rw [hrun.2]
          have := processBufferEntry_keeps_stats s
          rw [hE] at this
          rw [this]
        · intro hh
          rw [hrun.1] at hh
          cases hh

/-- The leg state for the C7 counterexample: started (`myLanguage` set,
`userId` as `handleStart` leaves it), holding a 500 ms segment, all
counters zero. -/
def c7CexState : ProcState :=
  { initProcState with
      myLanguage := some "en"
      userId := some "null_null"
      audioBuffer := List.replicate 25 []
      bufferDuration := 500 }

/-- The environment for the C7 counterexample: the transcription service
fails (rejected `recognize` promise); everything else would succeed. -/
def c7CexEnv : PipelineEnv :=
  { sqrtFn := fun q => q
    recognizeResult := .failure
    translateResult := .ok "hola"
    ttsResult := .ok [1, 2]
    ttsFallbackResult := .ok [1, 2]
    sendFails := false
    sessionPresent := true
    otherConn := some ⟨true, some "MZ2", some "es", some "receiver"⟩
    now := 0 }

/-- C7 counterexample to the claim as stated: a transcribe-stage failure
is caught inside `transcribeAudioEnhanced` (which returns null), so the
flush abandons the segment WITHOUT incrementing `stats.errors` — the
counter stays 0 where the claim requires it to become 1.  The trace
shows the pipeline was entered and the transcribe stage ran; `busy` is
false afterwards. -/
theorem c7_transcribe_failure_not_counted_cex :
    (processBuffer c7CexEnv c7CexState).2.1
      = [Stage.decode, Stage.analyze, Stage.transcribe] ∧
    c7CexEnv.recognizeResult = ExtResult.failure ∧
    c7CexState.stats.errors = 0 ∧
    (processBuffer c7CexEnv c7CexState).1.stats.errors = 0 ∧
    (processBuffer c7CexEnv c7CexState).1.isProcessing = false := by
  refine ⟨?_, rfl, rfl, ?_, ?_⟩ <;> with_unfolding_all decide

/-!
## SessionRegistry — `activeSessions` (src/server.js) and the processor's
`registerConnection`/`cleanup` (src/bidirectional-processor.js 86–105,
603–630)

A session object is created by `POST /create-room` with
`creatorConnection`/`participantConnection` fields; `registerConnection`
later assigns `callerConnection`/`receiverConnection` properties on the
same object (dynamically added, `undefined` before).  Connections are
identified by numeric handles; `wsOpen` maps a handle to
`ws.readyState === 1`.
-/

/-- A session record: the fields `POST /create-room` writes plus the two
slot names `registerConnection` writes. -/
structure SessionRec where
  creatorLanguage : Option String := none
  participantLanguage : Option String := none
  creatorConnection : Option Nat := none
  participantConnection : Option Nat := none
  callerConnection : Option Nat := none
  receiverConnection : Option Nat := none
  createdAt : Nat := 0
deriving DecidableEq, Repr

/-- The `activeSessions` map, insertion-ordered like a JS `Map`. -/
abbrev Registry := List (String × SessionRec)

/-- `activeSessions.get`. -/
def regGet : Registry → String → Option SessionRec
  | [], _ => none
  | (k, v) :: rest, key => if k = key then some v else regGet rest key

/-- `activeSessions.set`: replace in place if present, else append. -/
def regSet : Registry → String → SessionRec → Registry
  | [], key, v => [(key, v)]
  | (k, w) :: rest, key, v =>
      if k = key then (key, v) :: rest else (k, w) :: regSet rest key v

/-- `activeSessions.delete`. -/
def regDelete : Registry → String → Registry
  | [], _ => []
  | (k, w) :: rest, key =>
      if k = key then rest else (k, w) :: regDelete rest key

/-- The `POST /create-room` handler's registry effect: a fresh session
with the creator's language, no legs, and only the creator/participant
slot names present. -/
def createRoom (reg : Registry) (roomId : String) (creatorLanguage : Option String)
    (now : Nat) : Registry :=
  regSet reg roomId
    { creatorLanguage := creatorLanguage
      participantLanguage := none
      creatorConnection := none
      participantConnection := none
      createdAt := now }

/-- `registerConnection`: no-op without a `roomId` or when the room is
unknown; otherwise writes the processor's handle into
`callerConnection` when `userType === "caller"` and into
`receiverConnection` otherwise, and stores the session back. -/
def registerConnection (reg : Registry) (roomId userType : Option String)
    (me : Nat) : Registry :=
  match roomId with
  | none => reg
  | some rid =>
      match regGet reg rid with
      | none => reg
      | some session =>
          let session :=
            if userType = some "caller" then
              { session with callerConnection := some me }
            else
              { session with receiverConnection := some me }
          regSet reg rid session

/-- The registry effect of the processor's `cleanup`: when the room is
known it nulls `creatorConnection` when `userType === "creator"` and
`participantConnection` otherwise, and stores the session back.  (The
buffer/timer/profile clearing acts on the processor's own state, not on
the registry.) -/
def cleanupRegistry (reg : Registry) (roomId userType : Option String) : Registry :=
  match roomId with
  | none => reg
  | some rid =>
      match regGet reg rid with
      | none => reg
      | some session =>
          let session :=
            if userType = some "creator" then
              { session with creatorConnection := none }
            else
              { session with participantConnection := none }
          regSet reg rid session

/-- The `ws.on("close")` handler (src/server.js 454–490): with missing
metadata or an unknown room it only runs `processor.cleanup()`; otherwise
it reads the *other* side from
`participantConnection`/`creatorConnection`, sends it one
`force-disconnect` when its socket is open, deletes the room, and runs
`cleanup` (whose room lookup then finds nothing).  The second component
is the list of `(handle, event)` messages sent. -/
def wsCloseHandler (reg : Registry) (wsOpen : Nat → Bool)
    (roomId userType : Option String) : Registry × List (Nat × String) :=
  match roomId, userType with
  | some rid, some ut =>
      (match regGet reg rid with
       | none => (cleanupRegistry reg (some rid) (some ut), [])
       | some session =>
           let otherSide :=
             if ut = "caller" then session.participantConnection
             else session.creatorConnection
           let msgs :=
             match otherSide with
             | some c => if wsOpen c = true then [(c, "force-disconnect")] else []
             | none => []
           (cleanupRegistry (regDelete reg rid) (some rid) (some ut), msgs))
  | _, _ => (cleanupRegistry reg roomId userType, [])

/-- A room `"r"` with both legs registered: the caller is connection `1`,
the receiver is connection `2`. -/
def bothLegsRegistry : Registry :=
  registerConnection
    (registerConnection (createRoom [] "r" (some "en") 0)
      (some "r") (some "caller") 1)
    (some "r") (some "receiver") 2

/-- C2: when the caller's transport closes, the receiver gets NO
`force-disconnect` at all (the claim requires exactly one).
`registerConnection` stored the legs under
`callerConnection`/`receiverConnection`, but the close handler looks the
peer up under `participantConnection`/`creatorConnection`, which are
always null — so `otherSide` is null and nothing is sent, even with both
sockets open.  The session IS removed from the registry (that half of
the claim holds). -/
theorem c2_close_sends_no_force_disconnect_cex :
    (regGet bothLegsRegistry "r").map (fun s =>
        (s.callerConnection, s.receiverConnection,
         s.creatorConnection, s.participantConnection))
      = some (some 1, some 2, none, none) ∧
    (wsCloseHandler bothLegsRegistry (fun _ => true) (some "r") (some "caller")).2
      = [] ∧
    regGet (wsCloseHandler bothLegsRegistry (fun _ => true)
        (some "r") (some "caller")).1 "r" = none := by
  refine ⟨rfl, rfl, rfl⟩

/-- A room `"r"` with only the caller (connection `1`) registered. -/
def callerOnlyRegistry : Registry :=
  registerConnection (createRoom [] "r" (some "en") 0) (some "r") (some "caller") 1

/-- C4: detaching a leg does NOT null the slot that attach occupied.
Attaching the caller set only `callerConnection` (first two conjuncts:
before/after), but `cleanup` tests `userType === "creator"` — which is
never the registered `"caller"`/`"receiver"` values — and so nulls
`participantConnection` (already null), leaving `callerConnection`
still set to the departed leg (third conjunct).  The session does remain
present, as the claim says. -/
theorem c4_cleanup_leaves_occupied_slot_cex :
    (regGet (createRoom [] "r" (some "en") 0) "r").map (fun s =>
        (s.callerConnection, s.receiverConnection,
         s.creatorConnection, s.participantConnection))
      = some (none, none, none, none) ∧
    (regGet callerOnlyRegistry "r").map (fun s =>
        (s.callerConnection, s.receiverConnection,
         s.creatorConnection, s.participantConnection))
      = some (some 1, none, none, none) ∧
    (regGet (cleanupRegistry callerOnlyRegistry (some "r") (some "caller")) "r").map
        (fun s =>
          (s.callerConnection, s.receiverConnection,
           s.creatorConnection, s.participantConnection))
      = some (some 1, none, none, none) := by
  refine ⟨rfl, rfl, rfl⟩
